import Mathlib

/-!
Verification development for the core of the restate Go SDK
(`muhamadazmy/restate-sdk-go`): the per-invocation state Machine, its
replay-or-new journal primitive, its terminal emissions (Output/End,
Suspension, Error), and the error-wrapper combinators of `error.go`.

Shallow embedding conventions:
* Go `error` values are `Option GoError`, with `none` for Go `nil`; the
  wrapper structs `codeError` and `terminalError` become constructors of
  the inductive `GoError`.
* Byte strings (`[]byte`) are `List Nat`; machine integers carry no
  arithmetic in the modelled code, so they are plain `Nat`.
* The duplex protocol stream is explicit: incoming frames are a
  `List WireMessage`; outgoing writes are returned as an ordered list of
  attempted writes, each paired with the success of that write attempt
  (`m.protocol.Write`'s error result), since the Go code attempts later
  writes regardless of earlier write failures and only logs them.
-/

namespace Restate

/-! ## Error model (src/error.go) -/

/-- `type Code uint16`. No arithmetic is performed on codes anywhere in the
source, so we use `Nat` directly. -/
abbrev Code := Nat

def CANCELLED : Code := 1
def UNKNOWN : Code := 2
def INVALID_ARGUMENT : Code := 3
def DEADLINE_EXCEEDED : Code := 4
def NOT_FOUND : Code := 5
def ALREADY_EXISTS : Code := 6
def PERMISSION_DENIED : Code := 7
def RESOURCE_EXHAUSTED : Code := 8
def FAILED_PRECONDITION : Code := 9
def ABORTED : Code := 10
def OUT_OF_RANGE : Code := 11
def UNIMPLEMENTED : Code := 12
def INTERNAL : Code := 13
def UNAVAILABLE : Code := 14
def DATA_LOSS : Code := 15
def UNAUTHENTICATED : Code := 16

/-- A non-nil Go `error` as the SDK builds them: a leaf error (e.g. from
`fmt.Errorf`, with no `Unwrap`), or one of the two wrapper structs of
`error.go`, `codeError{code, inner}` and `terminalError{inner}`, whose
`Unwrap` returns `inner`. -/
inductive GoError where
  | base (msg : String)
  | codeError (code : Code) (inner : GoError)
  | terminalError (inner : GoError)
deriving DecidableEq, Repr

/-- One uppercase hexadecimal digit. -/
def hexDigit (n : Nat) : Char :=
  if n < 10 then Char.ofNat (48 + n) else Char.ofNat (55 + n)

/-- Go's `%04X` of a `uint16` value: exactly four uppercase hex digits. -/
def hex4 (n : Nat) : String :=
  ⟨[hexDigit (n / 4096 % 16), hexDigit (n / 256 % 16),
    hexDigit (n / 16 % 16), hexDigit (n % 16)]⟩

/-- The `Error()` method: `codeError` formats `"[CODE %04X] %s"` over its
inner error; `terminalError` delegates to its inner error. -/
def GoError.errorString : GoError → String
  | .base m => m
  | .codeError c inner => "[CODE " ++ hex4 (c % 65536) ++ "] " ++ inner.errorString
  | .terminalError inner => inner.errorString

/-- `errors.As(err, &t)` for `t : *terminalError`, walking the `Unwrap`
chain: a `terminalError` matches at once, a `codeError` unwraps to its
inner error, a leaf error has no `Unwrap` and fails. -/
def GoError.asTerminal : GoError → Bool
  | .base _ => false
  | .terminalError _ => true
  | .codeError _ inner => inner.asTerminal

/-- `errors.As(err, &e)` for `e : *codeError` over the `Unwrap` chain:
the code of the outermost `codeError`, if any. -/
def GoError.asCode : GoError → Option Code
  | .base _ => none
  | .codeError c _ => some c
  | .terminalError inner => inner.asCode

/-- Whether a `codeError` wrapper occurs anywhere in the error chain. -/
def GoError.mentionsCode : GoError → Bool
  | .base _ => false
  | .codeError _ _ => true
  | .terminalError inner => inner.mentionsCode

/-- Whether a `terminalError` wrapper occurs anywhere in the error chain. -/
def GoError.mentionsTerminal : GoError → Bool
  | .base _ => false
  | .codeError _ inner => inner.mentionsTerminal
  | .terminalError _ => true

/-- `WithErrorCode(err, code)`: `nil` stays `nil`; otherwise wrap in a
`codeError`. -/
def WithErrorCode (err : Option GoError) (code : Code) : Option GoError :=
  match err with
  | none => none
  | some e => some (.codeError code e)

/-- `TerminalError(err, code...)`. The Go function returns `nil` for a
`nil` argument, panics when more than one code is passed (modelled as the
outer `none`), and otherwise wraps in a `terminalError`, further wrapped
in a `codeError` when exactly one code is given. The outer `Option` is
the no-panic/panic distinction; the inner one is Go `nil`-ness. -/
def TerminalError (err : Option GoError) (code : List Code) : Option (Option GoError) :=
  match err with
  | none => some none
  | some e =>
    if code.length > 1 then
      none
    else
      match code with
      | [c] => some (some (.codeError c (.terminalError e)))
      | _ => some (some (.terminalError e))

/-- `IsTerminalError(err)`: false on `nil`, else `errors.As` for
`*terminalError`. -/
def IsTerminalError (err : Option GoError) : Bool :=
  match err with
  | none => false
  | some e => e.asTerminal

/-- `ErrorCode(err)`: the code of the outermost `codeError` in the chain,
or `UNKNOWN` when there is none (also on `nil`). -/
def ErrorCode (err : Option GoError) : Code :=
  match err with
  | none => UNKNOWN
  | some e =>
    match e.asCode with
    | some c => c
    | none => UNKNOWN

/-! ## Wire messages and the Machine (state machine core) -/

/-- Modelled from the spec: the message type tags of the internal `wire`
package are not under src/; the spec (§6) fixes a 16-bit type tag per
message kind without giving numeric values. Only distinctness of the
`Start` and `PollInput` tags from other tags matters to the modelled
code, so the concrete values are arbitrary distinct constants. -/
def StartMessageType : Nat := 0

/-- Modelled from the spec: tag of the input entry (`PollInput`) frame;
see `StartMessageType`. -/
def PollInputEntryMessageType : Nat := 1024

/-- Modelled from the spec: the `wire.StartMessage` payload is not under
src/; the spec (§6) says it carries a debug id, the known-entries count
K, a repeated state-map entry list, and a partial-state flag. Keys reach
the Machine as `string(entry.Key)`, so they are modelled as `String`. -/
structure StartPayload where
  debugId : String
  knownEntries : Nat
  stateMap : List (String × List Nat)
  partialState : Bool
deriving DecidableEq, Repr

/-- A typed frame as the internal `wire` package's reader produces it
(the `wire.Message` interface): the `Start` handshake frame, the
`PollInput` input entry, or any other journal entry carried with its
16-bit type tag and opaque payload. -/
inductive WireMessage where
  | startMsg (version : Nat) (payload : StartPayload)
  | pollInputEntry (value : List Nat)
  | entry (tag : Nat) (payloadBits : List Nat)
deriving DecidableEq, Repr

/-- The `Type()` method of a wire message: the reader constructs
`startMsg`/`pollInputEntry` exactly for their tags. -/
def WireMessage.typ : WireMessage → Nat
  | .startMsg _ _ => StartMessageType
  | .pollInputEntry _ => PollInputEntryMessageType
  | .entry tag _ => tag

/-- The state of a `Machine` (the fields of the Go struct that the
modelled code touches; the handler, codec, mutex and logger are the
explicit parameters and results of the functions below). `partialFlag`
models the Go field `partial`. -/
structure Machine where
  id : String := ""
  partialFlag : Bool := false
  current : List (String × List Nat) := []
  entries : List WireMessage := []
  entryIndex : Nat := 0
deriving DecidableEq, Repr

/-- `NewMachine`: the fields of the modelled state start at their Go zero
values (`current` is allocated empty). -/
def NewMachine : Machine := {}

/-- `Machine.currentEntry`: the entry at the current journal index, when
the index is within the replay entries. -/
def Machine.currentEntry (m : Machine) : Option WireMessage :=
  if m.entryIndex < m.entries.length then m.entries.get? m.entryIndex else none

/-- Modelled from the spec: `errEntryMismatch` is referenced by
`replayOrNew` but defined in a file not under src/. The spec (§7) fixes
journal-mismatch errors as always non-terminal with code INTERNAL, so it
is a `codeError` wrapping a plain error, with no `terminalError`. -/
def errEntryMismatch : GoError := .codeError INTERNAL (.base "log entry mismatch")

/-- `replayOrNew[M, O](m, typ, replay, new)`: under the Machine mutex,
look at the entry at the current index. If one exists and its type
differs from `typ`, fail with `errEntryMismatch` (returning the zero
value of `O`); if it exists with the right type, call `replay` on it;
if none exists, call `new`. The deferred `m.entryIndex += 1` runs on
every path. The Go type parameter `M` is the cast target of the matched
entry; the callback here receives the raw matched message. -/
def replayOrNew {O : Type} [Inhabited O] (m : Machine) (typ : Nat)
    (replay : WireMessage → O × Option GoError)
    (new : Unit → O × Option GoError) : (O × Option GoError) × Machine :=
  let result :=
    match m.currentEntry with
    | some entry =>
      if entry.typ ≠ typ then ((default : O), some errEntryMismatch)
      else replay entry
    | none => new ()
  (result, { m with entryIndex := m.entryIndex + 1 })

/-! ## Outgoing protocol messages, Machine.output and Machine.invoke -/

/-- The handler's response value. `dynrpc.RpcResponse` is a generated
protobuf message; the modelled code only passes it to `proto.Marshal`,
so it is treated as its serialized bytes (see `marshal`). -/
structure RpcResponse where
  bytes : List Nat
deriving DecidableEq, Repr

/-- `proto.Marshal` on an `RpcResponse`. Marshalling a well-formed
generated message does not fail (the Go code's marshal-error branch is
guarded by a "this shouldn't happen" comment), so it is modelled total. -/
def marshal (r : RpcResponse) : List Nat := r.bytes

/-- The outgoing protocol messages the modelled code writes:
`OutputStreamEntryMessage` with its `oneof` result (a value or a
`Failure{code, message}`), `ErrorMessage`, `SuspensionMessage`,
`EndMessage`. -/
inductive ProtoMessage where
  | outputValue (value : List Nat)
  | outputFailure (code : Nat) (message : String)
  | errorMessage (code : Nat) (message : String) (description : String)
  | suspensionMessage (entryIndexes : List Nat)
  | endMessage
deriving DecidableEq, Repr

def ProtoMessage.isOutput : ProtoMessage → Bool
  | .outputValue _ => true
  | .outputFailure _ _ => true
  | _ => false

def ProtoMessage.isError : ProtoMessage → Bool
  | .errorMessage _ _ _ => true
  | _ => false

def ProtoMessage.isSuspension : ProtoMessage → Bool
  | .suspensionMessage _ => true
  | _ => false

def ProtoMessage.isEnd : ProtoMessage → Bool
  | .endMessage => true
  | _ => false

def countOutput (l : List ProtoMessage) : Nat := (l.filter ProtoMessage.isOutput).length

def countError (l : List ProtoMessage) : Nat := (l.filter ProtoMessage.isError).length

def countSuspension (l : List ProtoMessage) : Nat :=
  (l.filter ProtoMessage.isSuspension).length

def countEnd (l : List ProtoMessage) : Nat := (l.filter ProtoMessage.isEnd).length

/-- Whether the write list opens with an Output message immediately
followed by an End message. -/
def outputThenEnd : List ProtoMessage → Bool
  | o :: .endMessage :: _ => o.isOutput
  | _ => false

/-- `Machine.output(r, err)`: build the response message from the
handler's return. A terminal error becomes an Output entry with a
`Failure{uint32(ErrorCode(err)), err.Error()}` payload; any other non-nil
error becomes an `ErrorMessage` (non-terminal, retryable); a nil error
becomes an Output entry with the marshalled response bytes. -/
def Machine.output (r : RpcResponse) (err : Option GoError) : ProtoMessage :=
  if err.isSome && IsTerminalError err then
    .outputFailure (ErrorCode err) (match err with | some e => e.errorString | none => "")
  else if err.isSome then
    .errorMessage (ErrorCode err) (match err with | some e => e.errorString | none => "") ""
  else
    .outputValue (marshal r)

/-- How one call of the user handler ends, from `Machine.invoke`'s view:
a normal return `(r, err)`, a panic with the `*suspend` sentinel carrying
`resumeEntry`, or any other panic (`fmt.Sprint` of the recovered value,
and `debug.Stack()`). -/
inductive HandlerOutcome where
  | ret (r : RpcResponse) (err : Option GoError)
  | suspendPanic (resumeEntry : Nat)
  | otherPanic (printed : String) (stack : String)
deriving DecidableEq, Repr

/-- `Machine.invoke`: the ordered list of write attempts of one session
past the handshake, each paired with that write's success (`writeOk i`
is the result of the i-th `m.protocol.Write`; the Go code ignores write
errors except for logging, so later attempts happen regardless).

On normal return the body writes `Machine.output(...)` and the deferred
function (recover returns nil) writes End. On the `*suspend` sentinel
the deferred function writes one `SuspensionMessage` with the awaited
entry index and returns before the End write. On any other panic it
writes one `ErrorMessage` with code INTERNAL, the printed panic value
and the stack as description, then End. No panic escapes `invoke`:
every outcome is mapped to a write list. -/
def Machine.invoke (outcome : HandlerOutcome) (writeOk : Nat → Bool) :
    List (ProtoMessage × Bool) :=
  match outcome with
  | .ret r err => [(Machine.output r err, writeOk 0), (.endMessage, writeOk 1)]
  | .suspendPanic resumeEntry => [(.suspensionMessage [resumeEntry], writeOk 0)]
  | .otherPanic printed stack =>
    [(.errorMessage INTERNAL printed stack, writeOk 0), (.endMessage, writeOk 1)]

/-- The messages whose writes a session attempts, in order. -/
def writesOf (l : List (ProtoMessage × Bool)) : List ProtoMessage := l.map Prod.fst

/-! ## Machine.Start and Machine.process (handshake and replay seeding) -/

/-- `const Version = 1`: the single supported protocol version. -/
def Version : Nat := 1

/-- One Go map store `m[k] = v` on the state map, represented as an
association list without duplicate keys: overwrite the binding of `k`
when present, append it otherwise. -/
def mapSet (m : List (String × List Nat)) (k : String) (v : List Nat) :
    List (String × List Nat) :=
  if m.any (fun p => p.1 = k) then
    m.map (fun p => if p.1 = k then (k, v) else p)
  else m ++ [(k, v)]

/-- The seeding loop of `process`:
`for _, entry := range start.Payload.StateMap { m.current[string(entry.Key)] = entry.Value }`. -/
def seedState (current : List (String × List Nat))
    (stateMap : List (String × List Nat)) : List (String × List Nat) :=
  stateMap.foldl (fun acc kv => mapSet acc kv.1 kv.2) current

/-- How `Machine.Start`/`Machine.process` end, up to the invocation of
the handler: a read error (modelled as running out of incoming frames),
`wire.ErrUnexpectedMessage`, `ErrInvalidVersion`, or reaching
`m.invoke(ctx, &input)` with the seeded machine state and the input
entry's value bytes. `proto.Unmarshal` of the input bytes into the
generated `dynrpc.RpcRequest` is out of the modelled core and treated as
the identity on the opaque bytes. -/
inductive StartOutcome where
  | failEOF
  | failUnexpectedMessage
  | failInvalidVersion
  | invoked (m : Machine) (input : List Nat)
deriving DecidableEq, Repr

/-- The Machine's `partial` field as observed at the point the handler
is invoked, if the handshake reached that point. -/
def partialAfter : StartOutcome → Option Bool
  | .invoked m _ => some m.partialFlag
  | _ => none

/-- `Machine.process(ctx, start)`: seed the state map from the Start
payload, require the next frame to be the input entry (`PollInput`),
read the remaining `KnownEntries − 1` frames into `m.entries` in arrival
order (the input entry itself is not tracked), then invoke the handler
on the input entry's value. The Go loop
`for i := uint32(1); i < KnownEntries; i++` reads exactly
`KnownEntries − 1` frames (truncated subtraction, as for `uint32`). -/
def Machine.process (m : Machine) (payload : StartPayload)
    (incoming : List WireMessage) : StartOutcome :=
  let m1 : Machine := { m with current := seedState m.current payload.stateMap }
  match incoming with
  | [] => .failEOF
  | msg :: rest =>
    if msg.typ ≠ PollInputEntryMessageType then .failUnexpectedMessage
    else if rest.length < payload.knownEntries - 1 then .failEOF
    else
      let m2 : Machine := { m1 with entries := rest.take (payload.knownEntries - 1) }
      match msg with
      | .pollInputEntry value => .invoked m2 value
      | _ => .failUnexpectedMessage

/-- `Machine.Start(inner, trace)`: read the first frame, require kind
Start (else `wire.ErrUnexpectedMessage`); record the debug id; require
the frame's version to equal the supported `Version` (else
`ErrInvalidVersion`); then run `process`. -/
def Machine.start (m : Machine) (incoming : List WireMessage) : StartOutcome :=
  match incoming with
  | [] => .failEOF
  | msg :: rest =>
    if msg.typ ≠ StartMessageType then .failUnexpectedMessage
    else
      match msg with
      | .startMsg version payload =>
        let m1 : Machine := { m with id := payload.debugId }
        if version ≠ Version then .failInvalidVersion
        else Machine.process m1 payload rest
      | _ => .failUnexpectedMessage

/-! ## Helper lemmas -/

/-- An error chain with no `codeError` wrapper matches no `*codeError`
target under `errors.As`. -/
lemma asCode_eq_none_of_not_mentionsCode (e : GoError)
    (h : e.mentionsCode = false) : e.asCode = none := by
  induction e with
  | base m => rfl
  | codeError c inner ih => simp [GoError.mentionsCode] at h
  | terminalError inner ih =>
    simp [GoError.mentionsCode] at h
    simpa [GoError.asCode] using ih h

/-- An error chain with no `terminalError` wrapper matches no
`*terminalError` target under `errors.As`. -/
lemma asTerminal_eq_false_of_not_mentionsTerminal (e : GoError)
    (h : e.mentionsTerminal = false) : e.asTerminal = false := by
  induction e with
  | base m => rfl
  | codeError c inner ih =>
    simp [GoError.mentionsTerminal] at h
    simpa [GoError.asTerminal] using ih h
  | terminalError inner ih => simp [GoError.mentionsTerminal] at h

/-! ## Claim theorems -/

/-- C10: the error-wrapper combinators satisfy: `TerminalError(nil)` is
`nil` (for any list of codes, without panicking) and
`WithErrorCode(nil, c)` is `nil`; for every non-nil `e`,
`IsTerminalError(TerminalError(e))` holds,
`ErrorCode(TerminalError(e, c)) = c`, `ErrorCode(WithErrorCode(e, c)) = c`,
`ErrorCode` of an error never wrapped in a code is `UNKNOWN`, and
wrapping a terminal error with `WithErrorCode` preserves
`IsTerminalError`. -/
theorem error_combinator_algebra :
    (∀ cs : List Code, TerminalError none cs = some none) ∧
    (∀ c : Code, WithErrorCode none c = none) ∧
    (∀ e : GoError, IsTerminalError ((TerminalError (some e) []).getD none) = true) ∧
    (∀ e : GoError, ∀ c : Code,
        ErrorCode ((TerminalError (some e) [c]).getD none) = c) ∧
    (∀ e : GoError, ∀ c : Code, ErrorCode (WithErrorCode (some e) c) = c) ∧
    (∀ e : GoError, e.mentionsCode = false → ErrorCode (some e) = UNKNOWN) ∧
    (∀ e : GoError, ∀ c : Code, IsTerminalError (some e) = true →
        IsTerminalError (WithErrorCode (some e) c) = true) := by
  refine ⟨fun cs => rfl, fun c => rfl, fun e => rfl, fun e c => rfl, fun e c => rfl,
    ?_, ?_⟩
  · intro e h
    simp [ErrorCode, asCode_eq_none_of_not_mentionsCode e h]
  · intro e c h
    simpa [WithErrorCode, IsTerminalError, GoError.asTerminal] using h

/-- C10 witness: the combinator algebra at a concrete error. -/
theorem error_combinator_algebra_witness :
    ErrorCode (some (GoError.base "boom")) = UNKNOWN ∧
    IsTerminalError
      (WithErrorCode (some (GoError.terminalError (GoError.base "boom"))) NOT_FOUND) = true :=
  ⟨error_combinator_algebra.2.2.2.2.2.1 (GoError.base "boom") rfl,
   error_combinator_algebra.2.2.2.2.2.2 (GoError.terminalError (GoError.base "boom"))
     NOT_FOUND rfl⟩

/-- C5: on handler return, a nil error yields an Output message with the
serialized value; an error with `IsTerminalError` yields an Output
message whose Failure payload carries the error's code and message; any
other non-nil error yields an Error message instead of an Output; an
error never wrapped by a `terminalError` is non-terminal; and
`ErrorCode` is `UNKNOWN` for an error never wrapped in a code. -/
theorem output_classifies_handler_errors :
    (∀ r : RpcResponse, Machine.output r none = .outputValue (marshal r)) ∧
    (∀ r : RpcResponse, ∀ e : GoError, IsTerminalError (some e) = true →
        Machine.output r (some e) =
          .outputFailure (ErrorCode (some e)) e.errorString) ∧
    (∀ r : RpcResponse, ∀ e : GoError, IsTerminalError (some e) = false →
        Machine.output r (some e) =
          .errorMessage (ErrorCode (some e)) e.errorString "" ∧
        (Machine.output r (some e)).isOutput = false) ∧
    (∀ e : GoError, e.mentionsTerminal = false → IsTerminalError (some e) = false) ∧
    (∀ e : GoError, e.mentionsCode = false → ErrorCode (some e) = UNKNOWN) := by
  refine ⟨fun r => rfl, ?_, ?_, ?_, ?_⟩
  · intro r e h
    simp [Machine.output, h]
  · intro r e h
    constructor
    · simp [Machine.output, h]
    · simp [Machine.output, h, ProtoMessage.isOutput]
  · intro e h
    simpa [IsTerminalError] using asTerminal_eq_false_of_not_mentionsTerminal e h
  · intro e h
    simp [ErrorCode, asCode_eq_none_of_not_mentionsCode e h]

/-- C5 witness: the output classification at concrete inputs. -/
theorem output_classifies_handler_errors_witness :
    Machine.output ⟨[2]⟩ (some (GoError.codeError NOT_FOUND
        (GoError.terminalError (GoError.base "missing")))) =
      .outputFailure NOT_FOUND "[CODE 0005] missing" ∧
    Machine.output ⟨[2]⟩ (some (GoError.base "retry me")) =
      .errorMessage UNKNOWN "retry me" "" := by
  constructor
  · have h := output_classifies_handler_errors.2.1 ⟨[2]⟩
      (GoError.codeError NOT_FOUND (GoError.terminalError (GoError.base "missing"))) rfl
    simpa using h
  · have h := (output_classifies_handler_errors.2.2.1 ⟨[2]⟩
      (GoError.base "retry me") rfl).1
    simpa using h

/-- C1: for every journaled operation performed through `replayOrNew`
with expected entry type `typ`: when an entry exists at the current
journal index and its type equals `typ`, the result is the replay
callback's result on that entry and the new-entry callback does not
influence the outcome; when no entry exists, the result is the
new-entry callback's result and the replay callback does not influence
the outcome; and on every path — including the mismatch error path —
the journal index advances by exactly one. -/
theorem replayOrNew_replays_or_creates (O : Type) [Inhabited O] (m : Machine)
    (typ : Nat) (replay : WireMessage → O × Option GoError)
    (new : Unit → O × Option GoError) :
    ((replayOrNew m typ replay new).2.entryIndex = m.entryIndex + 1) ∧
    ((replayOrNew m typ replay new).2 = { m with entryIndex := m.entryIndex + 1 }) ∧
    (∀ e, m.currentEntry = some e → e.typ = typ →
        (replayOrNew m typ replay new).1 = replay e) ∧
    (m.currentEntry = none → (replayOrNew m typ replay new).1 = new ()) ∧
    (∀ e, m.currentEntry = some e → e.typ ≠ typ →
        (replayOrNew m typ replay new).1 = ((default : O), some errEntryMismatch)) ∧
    (∀ new2 : Unit → O × Option GoError, m.currentEntry.isSome = true →
        replayOrNew m typ replay new = replayOrNew m typ replay new2) ∧
    (∀ replay2 : WireMessage → O × Option GoError, m.currentEntry = none →
        replayOrNew m typ replay new = replayOrNew m typ replay2 new) := by
  refine ⟨rfl, rfl, ?_, ?_, ?_, ?_, ?_⟩
  · intro e he ht
    simp [replayOrNew, he, ht]
  · intro he
    simp [replayOrNew, he]
  · intro e he ht
    simp [replayOrNew, he, ht]
  · intro new2 hs
    obtain ⟨e, he⟩ := Option.isSome_iff_exists.mp hs
    simp [replayOrNew, he]
  · intro replay2 he
    simp [replayOrNew, he]

/-- C1 witness: `replayOrNew` on a one-entry journal with a matching
type replays the entry, and the index advances to 1. -/
theorem replayOrNew_replays_or_creates_witness :
    (replayOrNew (O := Nat) ⟨"", false, [], [WireMessage.entry 2048 [9]], 0⟩ 2048
        (fun e => (e.typ, none)) (fun _ => (7, none))).1 = (2048, none) ∧
    (replayOrNew (O := Nat) ⟨"", false, [], [WireMessage.entry 2048 [9]], 0⟩ 2048
        (fun e => (e.typ, none)) (fun _ => (7, none))).2.entryIndex = 1 := by
  constructor
  · have h := (replayOrNew_replays_or_creates Nat
        ⟨"", false, [], [WireMessage.entry 2048 [9]], 0⟩ 2048
        (fun e => (e.typ, none)) (fun _ => (7, none))).2.2.1
        (WireMessage.entry 2048 [9]) rfl rfl
    simpa using h
  · exact (replayOrNew_replays_or_creates Nat
        ⟨"", false, [], [WireMessage.entry 2048 [9]], 0⟩ 2048
        (fun e => (e.typ, none)) (fun _ => (7, none))).1

/-- C2: when the current replay entry's kind differs from the kind the
handler's operation expects, the operation fails with the journal
mismatch error, which is non-terminal and carries code INTERNAL; a
session whose handler returns that error emits exactly one Error
message — carrying code INTERNAL — and no Output message. -/
theorem journal_mismatch_internal_error (O : Type) [Inhabited O] (m : Machine)
    (typ : Nat) (replay : WireMessage → O × Option GoError)
    (new : Unit → O × Option GoError) (e : WireMessage) (r : RpcResponse)
    (writeOk : Nat → Bool)
    (h1 : m.currentEntry = some e) (h2 : e.typ ≠ typ) :
    (replayOrNew m typ replay new).1 = ((default : O), some errEntryMismatch) ∧
    IsTerminalError (some errEntryMismatch) = false ∧
    ErrorCode (some errEntryMismatch) = INTERNAL ∧
    Machine.invoke (.ret r (some errEntryMismatch)) writeOk =
      [(.errorMessage INTERNAL errEntryMismatch.errorString "", writeOk 0),
       (.endMessage, writeOk 1)] ∧
    countError (writesOf (Machine.invoke (.ret r (some errEntryMismatch)) writeOk)) = 1 ∧
    countOutput (writesOf (Machine.invoke (.ret r (some errEntryMismatch)) writeOk)) = 0 := by
  refine ⟨?_, rfl, rfl, ?_, ?_, ?_⟩
  · simp [replayOrNew, h1, h2]
  · simp [Machine.invoke, Machine.output, IsTerminalError, ErrorCode,
      errEntryMismatch, GoError.asTerminal, GoError.asCode]
  · simp [Machine.invoke, Machine.output, IsTerminalError, errEntryMismatch,
      GoError.asTerminal, writesOf, countError, ProtoMessage.isError]
  · simp [Machine.invoke, Machine.output, IsTerminalError, errEntryMismatch,
      GoError.asTerminal, writesOf, countOutput, ProtoMessage.isOutput]

/-- C2 witness: the mismatch path at a concrete machine whose single
replay entry has kind 2049 while the operation expects kind 2050. -/
theorem journal_mismatch_internal_error_witness :
    (replayOrNew (O := Nat) ⟨"", false, [], [WireMessage.entry 2049 []], 0⟩ 2050
        (fun e => (e.typ, none)) (fun _ => (7, none))).1 =
      (0, some errEntryMismatch) ∧
    countOutput (writesOf (Machine.invoke
        (.ret ⟨[]⟩ (some errEntryMismatch)) (fun _ => true))) = 0 := by
  have h := journal_mismatch_internal_error Nat
      ⟨"", false, [], [WireMessage.entry 2049 []], 0⟩ 2050
      (fun e => (e.typ, none)) (fun _ => (7, none)) (WireMessage.entry 2049 [])
      ⟨[]⟩ (fun _ => true) rfl (by decide)
  exact ⟨h.1, h.2.2.2.2.2⟩

/-- C3: every session that reaches the handler invocation writes exactly
one of the three terminal emissions — an Output (followed immediately by
End), a Suspension, or an Error — never zero of them and never two,
whatever the handler outcome and whatever the write successes. -/
theorem invoke_exactly_one_terminal_emission (outcome : HandlerOutcome)
    (writeOk : Nat → Bool) :
    countOutput (writesOf (Machine.invoke outcome writeOk)) +
      countSuspension (writesOf (Machine.invoke outcome writeOk)) +
      countError (writesOf (Machine.invoke outcome writeOk)) = 1 ∧
    (countOutput (writesOf (Machine.invoke outcome writeOk)) = 1 →
      outputThenEnd (writesOf (Machine.invoke outcome writeOk)) = true) := by
  cases outcome with
  | ret r err =>
    cases err with
    | none =>
      simp [Machine.invoke, Machine.output, writesOf, countOutput, countSuspension,
        countError, outputThenEnd, ProtoMessage.isOutput, ProtoMessage.isError,
        ProtoMessage.isSuspension]
    | some e =>
      by_cases h : e.asTerminal <;>
        simp [Machine.invoke, Machine.output, IsTerminalError, h, writesOf,
          countOutput, countSuspension, countError, outputThenEnd,
          ProtoMessage.isOutput, ProtoMessage.isError, ProtoMessage.isSuspension]
  | suspendPanic resumeEntry =>
    simp [Machine.invoke, writesOf, countOutput, countSuspension, countError,
      ProtoMessage.isOutput, ProtoMessage.isError, ProtoMessage.isSuspension]
  | otherPanic printed stack =>
    simp [Machine.invoke, writesOf, countOutput, countSuspension, countError,
      ProtoMessage.isOutput, ProtoMessage.isError, ProtoMessage.isSuspension]

/-- C3 witness: a successful handler return emits one Output, and it is
immediately followed by End. -/
theorem invoke_exactly_one_terminal_emission_witness :
    countOutput (writesOf (Machine.invoke (.ret ⟨[1]⟩ none) (fun _ => true))) +
      countSuspension (writesOf (Machine.invoke (.ret ⟨[1]⟩ none) (fun _ => true))) +
      countError (writesOf (Machine.invoke (.ret ⟨[1]⟩ none) (fun _ => true))) = 1 ∧
    outputThenEnd (writesOf (Machine.invoke (.ret ⟨[1]⟩ none) (fun _ => true))) = true :=
  ⟨(invoke_exactly_one_terminal_emission (.ret ⟨[1]⟩ none) (fun _ => true)).1,
   (invoke_exactly_one_terminal_emission (.ret ⟨[1]⟩ none) (fun _ => true)).2 rfl⟩

/-- C4: when the suspend sentinel unwinds the handler's stack, the
Machine catches it and the session's writes are exactly one Suspension
message listing the awaited entry index — in particular no End message
is written. -/
theorem suspension_single_message_no_end (resumeEntry : Nat) (writeOk : Nat → Bool) :
    Machine.invoke (.suspendPanic resumeEntry) writeOk =
      [(.suspensionMessage [resumeEntry], writeOk 0)] ∧
    countSuspension (writesOf (Machine.invoke (.suspendPanic resumeEntry) writeOk)) = 1 ∧
    countEnd (writesOf (Machine.invoke (.suspendPanic resumeEntry) writeOk)) = 0 := by
  refine ⟨rfl, ?_, ?_⟩ <;>
    simp [Machine.invoke, writesOf, countSuspension, countEnd,
      ProtoMessage.isSuspension, ProtoMessage.isEnd]

/-- C8: a handler panic that is not the suspension sentinel is recovered
by the Machine inside `invoke` (the model maps every outcome to a write
list, so nothing propagates) and converted into exactly one Error
message with code INTERNAL, the printed panic value as message and the
stack backtrace as description; no Output and no Suspension is
written. -/
theorem panic_recovered_as_internal_error (printed stack : String)
    (writeOk : Nat → Bool) :
    Machine.invoke (.otherPanic printed stack) writeOk =
      [(.errorMessage INTERNAL printed stack, writeOk 0), (.endMessage, writeOk 1)] ∧
    countError (writesOf (Machine.invoke (.otherPanic printed stack) writeOk)) = 1 ∧
    countOutput (writesOf (Machine.invoke (.otherPanic printed stack) writeOk)) = 0 ∧
    countSuspension (writesOf (Machine.invoke (.otherPanic printed stack) writeOk)) = 0 := by
  refine ⟨rfl, ?_, ?_, ?_⟩ <;>
    simp [Machine.invoke, writesOf, countError, countOutput, countSuspension,
      ProtoMessage.isError, ProtoMessage.isOutput, ProtoMessage.isSuspension]

/-- C9: on handler return the Machine attempts the write of the response
message and then the End message, in that order; in the cases where the
response is an Output message (nil or terminal error), the Output comes
first; and the End write is attempted regardless of the success of the
Output write (the write-success function is arbitrary, including one
that fails every write). -/
theorem output_then_end_write_attempted (r : RpcResponse) (err : Option GoError)
    (writeOk : Nat → Bool) :
    Machine.invoke (.ret r err) writeOk =
      [(Machine.output r err, writeOk 0), (.endMessage, writeOk 1)] ∧
    ((err = none ∨ IsTerminalError err = true) →
      (Machine.output r err).isOutput = true) ∧
    ProtoMessage.endMessage ∈ writesOf (Machine.invoke (.ret r err) writeOk) := by
  refine ⟨rfl, ?_, ?_⟩
  · rintro (rfl | h)
    · rfl
    · cases err with
      | none => simp [IsTerminalError] at h
      | some e =>
        simp [IsTerminalError] at h
        simp [Machine.output, IsTerminalError, h, ProtoMessage.isOutput]
  · simp [Machine.invoke, writesOf]

/-- C9 witness: with every write failing, the End write is still
attempted after the Output write, and the first message is an Output. -/
theorem output_then_end_write_attempted_witness :
    Machine.invoke (.ret ⟨[4]⟩ none) (fun _ => false) =
      [(Machine.output ⟨[4]⟩ none, false), (.endMessage, false)] ∧
    (Machine.output ⟨[4]⟩ none).isOutput = true ∧
    ProtoMessage.endMessage ∈ writesOf (Machine.invoke (.ret ⟨[4]⟩ none) (fun _ => false)) :=
  ⟨(output_then_end_write_attempted ⟨[4]⟩ none (fun _ => false)).1,
   (output_then_end_write_attempted ⟨[4]⟩ none (fun _ => false)).2.1 (Or.inl rfl),
   (output_then_end_write_attempted ⟨[4]⟩ none (fun _ => false)).2.2⟩

/-- C6: on `start(stream)`: a first frame whose kind is not Start fails
with the unexpected-message error; a Start frame with a version other
than the supported `Version` (1) fails with the invalid-version error; a
second frame whose kind is not PollInput fails with the
unexpected-message error; and otherwise the remaining `K − 1` frames are
enqueued as the replay entries in arrival order in the machine handed to
the handler invocation. -/
theorem start_handshake (m : Machine) :
    (∀ msg rest, WireMessage.typ msg ≠ StartMessageType →
        Machine.start m (msg :: rest) = .failUnexpectedMessage) ∧
    (∀ version payload rest, version ≠ Version →
        Machine.start m (.startMsg version payload :: rest) = .failInvalidVersion) ∧
    (∀ payload msg rest, WireMessage.typ msg ≠ PollInputEntryMessageType →
        Machine.start m (.startMsg Version payload :: msg :: rest) =
          .failUnexpectedMessage) ∧
    (∀ payload value rest, payload.knownEntries - 1 ≤ rest.length →
        Machine.start m (.startMsg Version payload :: .pollInputEntry value :: rest) =
          .invoked { m with id := payload.debugId,
                            current := seedState m.current payload.stateMap,
                            entries := rest.take (payload.knownEntries - 1) } value) := by
  refine ⟨?_, ?_, ?_, ?_⟩
  · intro msg rest h
    simp [Machine.start, h]
  · intro version payload rest h
    simp [Machine.start, WireMessage.typ, h]
  · intro payload msg rest h
    cases msg with
    | startMsg v p =>
      simp [Machine.start, Machine.process, WireMessage.typ, Version,
        StartMessageType, PollInputEntryMessageType]
    | pollInputEntry v => simp [WireMessage.typ] at h
    | entry tag bits =>
      have ht : tag ≠ PollInputEntryMessageType := by simpa [WireMessage.typ] using h
      simp [Machine.start, Machine.process, WireMessage.typ, Version, ht]
  · intro payload value rest h
    simp [Machine.start, Machine.process, WireMessage.typ, Version,
      Nat.not_lt.mpr h]

/-- C6 witness: the full handshake on a concrete stream with K = 3: the
two frames after the input entry become the replay entries in arrival
order. -/
theorem start_handshake_witness :
    Machine.start NewMachine
        [WireMessage.startMsg Version ⟨"dbg", 3, [], false⟩,
         WireMessage.pollInputEntry [1],
         WireMessage.entry 2049 [5], WireMessage.entry 2050 [6]] =
      .invoked { NewMachine with id := "dbg",
                                 current := seedState NewMachine.current [],
                                 entries := [WireMessage.entry 2049 [5],
                                   WireMessage.entry 2050 [6]] }
        [1] := by
  have h := (start_handshake NewMachine).2.2.2 ⟨"dbg", 3, [], false⟩ [1]
      [WireMessage.entry 2049 [5], WireMessage.entry 2050 [6]] (by decide)
  simpa using h

/-- C7 counterexample: a Start payload whose partial-state flag is true
reaches the handler invocation with the Machine's `partial` field still
false — the flag is not seeded from the Start payload, refuting the
claim at this concrete input. -/
theorem machine_partial_flag_not_seeded_cex :
    partialAfter (Machine.start NewMachine
        [WireMessage.startMsg 1 ⟨"id", 1, [("k", [7])], true⟩,
         WireMessage.pollInputEntry [3]]) = some false := by
  rfl

/-- C7 (amended): on receiving Start, `process` seeds the Machine's
state map from the Start payload's state-map entries, but does not seed
the partial-state flag, which keeps its prior value (false from
`NewMachine`). -/
theorem process_seeds_state_map_not_partial_flag (m : Machine)
    (payload : StartPayload) (incoming : List WireMessage) (m' : Machine)
    (input : List Nat)
    (h : Machine.process m payload incoming = .invoked m' input) :
    m'.current = seedState m.current payload.stateMap ∧
    m'.partialFlag = m.partialFlag := by
  cases incoming with
  | nil => simp [Machine.process] at h
  | cons msg rest =>
    cases msg with
    | startMsg version p =>
      simp [Machine.process, WireMessage.typ, StartMessageType,
        PollInputEntryMessageType] at h
    | pollInputEntry value =>
      by_cases hl : rest.length < payload.knownEntries - 1
      · simp [Machine.process, WireMessage.typ, hl] at h
      · simp [Machine.process, WireMessage.typ, hl] at h
        cases h.1
        simp
    | entry tag bits =>
      by_cases ht : tag = PollInputEntryMessageType
      · by_cases hl : rest.length < payload.knownEntries - 1 <;>
          simp [Machine.process, WireMessage.typ, ht, hl] at h
      · simp [Machine.process, WireMessage.typ, ht] at h

/-- C7 (amended) witness: seeding at a concrete Start payload. -/
theorem process_seeds_state_map_not_partial_flag_witness :
    (Machine.mk "" false [("k", [7])] [] 0).current =
      seedState NewMachine.current [("k", [7])] ∧
    (Machine.mk "" false [("k", [7])] [] 0).partialFlag = NewMachine.partialFlag :=
  process_seeds_state_map_not_partial_flag NewMachine ⟨"id", 1, [("k", [7])], true⟩
    [WireMessage.pollInputEntry [3]] (Machine.mk "" false [("k", [7])] [] 0) [3] rfl

end Restate
